import Mathlib

/-!
Shallow embedding of `src/main.rs` of WINSDK/openglrust: a gfx-hal render
loop that configures a swapchain, records one frame per redraw tick, and
tears down all GPU handles through a `Drop` impl on `ResourceHolder`.

External collaborators (the gfx-hal device/surface/queue and the winit
event loop) are modelled as an environment of call outcomes; the embedding
records every GPU call the handler issues in a trace, and threads the
closure-captured mutable state (`surface_extent`, `configure_swapchain`)
explicitly.
-/

namespace OpenglRust

/-- gfx_hal `ChannelType`; only the sRGB / non-sRGB distinction is inspected
by the program (`format.base_format().1 == ChannelType::Srgb`). -/
inductive ChannelType where
  | srgb
  | unorm
  | other

deriving instance DecidableEq for ChannelType

/-- A surface color format: an identifying tag plus the channel type of its
base format. -/
structure Format where
  id : Nat
  channel : ChannelType

deriving instance DecidableEq for Format

/-- `gfx_hal::format::Format::Rgba8Srgb`, the fixed fallback used when the
surface reports no supported formats (main.rs line 255). -/
def RGBA8SRGB : Format := ⟨8, ChannelType.srgb⟩

/-- main.rs lines 248-261: pick the first supported format whose base channel
type is sRGB, else the first supported format, else `Rgba8Srgb`.
`supported?` is `surface.supported_formats(..)`; `.getD []` is
`.unwrap_or(vec![])`. -/
def surface_color_format (supported? : Option (List Format)) : Format :=
  let supported_formats := supported?.getD []
  let default_format := supported_formats.headD RGBA8SRGB
  (supported_formats.find? (fun f => f.channel == ChannelType.srgb)).getD default_format

/-- `gfx_hal::window::Extent2D`. -/
structure Extent2D where
  width : Nat
  height : Nat

deriving instance DecidableEq for Extent2D

/-- The semaphore handles the frame loop touches: only `rendering_semaphore`. -/
inductive SemId where
  | rendering

deriving instance DecidableEq for SemId

/-- The fence handles the frame loop touches: only `submission_fence`. -/
inductive FenceId where
  | submission

deriving instance DecidableEq for FenceId

/-- One GPU/surface call issued during a redraw tick, with the arguments the
claims inspect. -/
inductive Action where
  | waitFence (timeout : Nat)
  | resetFence
  | resetPool
  | configureSwapchain (extent : Extent2D)
  | acquireImage (timeout : Nat)
  | createFramebuffer (extent : Extent2D)
  | beginPrimary
  | setViewports (extent : Extent2D)
  | setScissors (extent : Extent2D)
  | beginRenderPass
  | bindGraphicsPipeline
  | draw (vertices : Nat) (instances : Nat)
  | endRenderPass
  | finishBuffer
  | submit (commandBuffers : Nat) (waitSemaphores : List SemId)
      (signalSemaphores : List SemId) (fence : Option FenceId)
  | present (waitSemaphores : Option SemId)
  | destroyFramebuffer

deriving instance DecidableEq for Action

/-- The mutable state captured by the event-loop closure, plus the signaled
bit of the submission fence (created signaled, main.rs line 312). -/
structure RenderState where
  surface_extent : Extent2D
  configure_swapchain : Bool
  fenceSignaled : Bool

deriving instance DecidableEq for RenderState

/-- State at entry to `event_loop.run`: extent from the initial physical
size (lines 190-199), `configure_swapchain = true` (line 329), fence created
in the signaled state (`create_fence(true)`, line 312). -/
def initialState (physical : Extent2D) : RenderState :=
  { surface_extent := physical, configure_swapchain := true, fenceSignaled := true }

/-- Outcomes of the external gfx-hal calls a redraw tick makes; each is an
`Except` so that the handler's `expect`/`unwrap`/`match` on it is explicit.
`waitFence` mirrors gfx-hal's `wait_for_fence`, which returns
`Result<bool, OomOrDeviceLost>`: `.ok true` means the fence signaled within
the timeout, `.ok false` means the wait timed out (still a non-error return),
and `.error` is an out-of-memory or device-lost condition.
`capsExtent` is the extent chosen by `SwapchainConfig::from_caps`, which may
clamp the requested extent to the surface capabilities. -/
structure FrameEnv where
  waitFence : Except String Bool
  resetFence : Except String Unit
  capsExtent : Extent2D
  configure : Except String Unit
  acquire : Except String Unit
  createFramebuffer : Except String Unit
  present : Except String Unit

/-- How a redraw tick ends: normally with the updated closure state, or in a
panic (Rust `expect`/`unwrap`). -/
inductive Outcome where
  | ok (s : RenderState)
  | panic (msg : String)

deriving instance DecidableEq for Outcome

/-- Result of one redraw tick: final outcome plus the trace of GPU calls. -/
structure TickResult where
  outcome : Outcome
  trace : List Action

deriving instance DecidableEq for TickResult

/-- `const TIMOUT: u64 = 1_000_000_000;` (main.rs line 362), nanoseconds. -/
def TIMOUT : Nat := 1000000000

/-- main.rs lines 384-409: update `surface_extent` to the capability-derived
`swapchain_config.extent`, then `configure_swapchain` (panicking on error via
`expect`), then clear the dirty flag. -/
def configureStage (env : FrameEnv) (s : RenderState) : Except String RenderState :=
  let s := { s with surface_extent := env.capsExtent }
  match env.configure with
  | .error _ => .error "Failed to configure swapchain"
  | .ok _ => .ok { s with configure_swapchain := false }

/-- `true` iff the `Except` is an error; Rust `Result::is_err`. -/
def isErr {α : Type} (e : Except String α) : Bool :=
  match e with
  | .error _ => true
  | .ok _ => false

/-- The `Event::RedrawRequested` arm (main.rs lines 360-499). Waits on the
submission fence (immediate `Ok(true)` if it is still signaled); the
`.expect` on the wait panics only on an `Err` return — gfx-hal reports a
timeout as `Ok(false)`, whose bool the statement discards, so the handler
continues past a timed-out wait.  It then resets the fence and the command
pool, and — only when `configure_swapchain` is set, since the whole
remaining body is inside `if configure_swapchain` — reconfigures the
swapchain, acquires an image, records, submits and presents, destroying the
transient framebuffer last. -/
def redrawTick (env : FrameEnv) (s : RenderState) : TickResult :=
  let waitResult : Except String Bool :=
    if s.fenceSignaled then .ok true else env.waitFence
  match waitResult with
  | .error _ => ⟨.panic "Failed to wait for fence", [.waitFence TIMOUT]⟩
  | .ok _ =>
    match env.resetFence with
    | .error _ => ⟨.panic "Out of memory", [.waitFence TIMOUT, .resetFence]⟩
    | .ok _ =>
      let s := { s with fenceSignaled := false }
      let pre : List Action := [.waitFence TIMOUT, .resetFence, .resetPool]
      if s.configure_swapchain then
        match configureStage env s with
        | .error msg => ⟨.panic msg, pre ++ [.configureSwapchain env.capsExtent]⟩
        | .ok s1 =>
          let tr1 := pre ++ [.configureSwapchain env.capsExtent, .acquireImage TIMOUT]
          match env.acquire with
          | .error _ => ⟨.ok { s1 with configure_swapchain := true }, tr1⟩
          | .ok _ =>
            let ext := s1.surface_extent
            let tr2 := tr1 ++ [.createFramebuffer ext]
            match env.createFramebuffer with
            | .error _ => ⟨.panic "called `Result::unwrap()` on an `Err` value", tr2⟩
            | .ok _ =>
              let s2 := { s1 with
                configure_swapchain := s1.configure_swapchain || isErr env.present }
              ⟨.ok s2,
                tr2 ++ [.beginPrimary, .setViewports ext, .setScissors ext,
                        .beginRenderPass, .bindGraphicsPipeline, .draw 0 1,
                        .endRenderPass, .finishBuffer,
                        .submit 1 [] [SemId.rendering] (some FenceId.submission),
                        .present (some SemId.rendering), .destroyFramebuffer]⟩
      else
        ⟨.ok s, pre⟩

/-- The window events the handler matches on (main.rs lines 337-354). -/
inductive WEvent where
  | closeRequested
  | resized (w h : Nat)
  | scaleFactorChanged (w h : Nat)
  | other

deriving instance DecidableEq for WEvent

/-- The `control_flow` assignment visible to the event loop. -/
inductive ControlFlow where
  | poll
  | exit

deriving instance DecidableEq for ControlFlow

/-- The `Event::WindowEvent` arm: `CloseRequested` exits; `Resized` and
`ScaleFactorChanged` store the new extent and set the dirty flag. -/
def handleWindowEvent (s : RenderState) (e : WEvent) : RenderState × ControlFlow :=
  match e with
  | .closeRequested => (s, .exit)
  | .resized w h =>
      ({ s with surface_extent := ⟨w, h⟩, configure_swapchain := true }, .poll)
  | .scaleFactorChanged w h =>
      ({ s with surface_extent := ⟨w, h⟩, configure_swapchain := true }, .poll)
  | .other => (s, .poll)

/-! ### Teardown (`impl Drop for ResourceHolder`, main.rs lines 30-64) -/

/-- The GPU handles owned by `GpuResources`; indexed constructors stand for
the elements of the `Vec` fields. -/
inductive Handle where
  | semaphore
  | fence
  | pipeline (i : Nat)
  | pipelineLayout (i : Nat)
  | renderPass (i : Nat)
  | commandPool
  | swapchain
  | surface
  | device
  | inst

deriving instance DecidableEq for Handle

/-- One destruction step: the handle it destroys and the handles it still
uses (e.g. every `device.destroy_*` call uses the device). -/
structure DestroyCall where
  destroyed : Handle
  uses : List Handle

deriving instance DecidableEq for DestroyCall

/-- The `Vec`-valued fields of `GpuResources` (handle tags). -/
structure GpuResources where
  pipelines : List Nat
  pipeline_layouts : List Nat
  render_passes : List Nat

deriving instance DecidableEq for GpuResources

/-- The destruction sequence of `Drop for ResourceHolder` (lines 48-61):
semaphore, fence, each pipeline, each layout, each render pass, pool,
`unconfigure_swapchain` (uses surface and device), `destroy_surface` (uses
the instance); the bindings still live at block end (`device`, `instance`)
are then dropped in reverse binding order. -/
def resourceHolderDrop (r : GpuResources) : List DestroyCall :=
  [⟨.semaphore, [.device]⟩, ⟨.fence, [.device]⟩]
  ++ r.pipelines.map (fun i => ⟨.pipeline i, [.device]⟩)
  ++ r.pipeline_layouts.map (fun i => ⟨.pipelineLayout i, [.device]⟩)
  ++ r.render_passes.map (fun i => ⟨.renderPass i, [.device]⟩)
  ++ [⟨.commandPool, [.device]⟩,
      ⟨.swapchain, [.surface, .device]⟩,
      ⟨.surface, [.inst]⟩,
      ⟨.device, []⟩,
      ⟨.inst, []⟩]

/-- The aggregate the program actually builds (lines 315-326): singleton
`vec![render_pass]`, `vec![pipeline_layout]`, `vec![pipeline]`. -/
def gpuResources0 : GpuResources :=
  { pipelines := [0], pipeline_layouts := [0], render_passes := [0] }

/-- No handle is referenced (used or destroyed) by any call after the call
that destroyed it. -/
def noUseAfterDestroy (tr : List DestroyCall) : Prop :=
  ∀ i j : Fin tr.length, i < j →
    (tr.get i).destroyed ∉ (tr.get j).uses ∧ (tr.get i).destroyed ≠ (tr.get j).destroyed

instance (tr : List DestroyCall) : Decidable (noUseAfterDestroy tr) := by
  unfold noUseAfterDestroy
  infer_instance

/-! ### Shared helper definitions and lemmas -/

/-- The unconditional prefix of every tick: fence wait, fence reset, pool
reset (main.rs lines 368-381). -/
def preTrace : List Action := [.waitFence TIMOUT, .resetFence, .resetPool]

/-- The trace of a fully successful tick (whatever the present outcome):
configure, acquire, record, submit, present, destroy framebuffer. -/
def fullTrace (ext : Extent2D) : List Action :=
  [.waitFence TIMOUT, .resetFence, .resetPool,
   .configureSwapchain ext, .acquireImage TIMOUT, .createFramebuffer ext,
   .beginPrimary, .setViewports ext, .setScissors ext,
   .beginRenderPass, .bindGraphicsPipeline, .draw 0 1,
   .endRenderPass, .finishBuffer,
   .submit 1 [] [SemId.rendering] (some FenceId.submission),
   .present (some SemId.rendering), .destroyFramebuffer]

lemma except_ok_of_isErr_false {e : Except String Unit} (h : isErr e = false) :
    e = .ok () := by
  cases e with
  | ok u => cases u; rfl
  | error m => simp [isErr] at h

lemma waitResult_ok {env : FrameEnv} {s : RenderState}
    (hw : s.fenceSignaled = true ∨ isErr env.waitFence = false) :
    ∃ b, (if s.fenceSignaled then Except.ok true else env.waitFence) = Except.ok b := by
  rcases hw with h | h
  · exact ⟨true, by simp [h]⟩
  · by_cases hf : s.fenceSignaled
    · exact ⟨true, by simp [hf]⟩
    · cases he : env.waitFence with
      | ok b => exact ⟨b, by simp [hf, he]⟩
      | error m => simp [isErr, he] at h

lemma redraw_wait_fail {env : FrameEnv} {s : RenderState} {msg : String}
    (hf : s.fenceSignaled = false) (hw : env.waitFence = .error msg) :
    redrawTick env s = ⟨.panic "Failed to wait for fence", [.waitFence TIMOUT]⟩ := by
  simp [redrawTick, hf, hw]

lemma redraw_reset_fail {env : FrameEnv} {s : RenderState} {msg : String}
    (hw : s.fenceSignaled = true ∨ isErr env.waitFence = false)
    (hr : env.resetFence = .error msg) :
    redrawTick env s = ⟨.panic "Out of memory", [.waitFence TIMOUT, .resetFence]⟩ := by
  obtain ⟨b, hb⟩ := waitResult_ok hw
  simp [redrawTick, hb, hr]

lemma redraw_not_dirty {env : FrameEnv} {s : RenderState}
    (hw : s.fenceSignaled = true ∨ isErr env.waitFence = false)
    (hr : isErr env.resetFence = false)
    (hd : s.configure_swapchain = false) :
    redrawTick env s = ⟨.ok { s with fenceSignaled := false }, preTrace⟩ := by
  obtain ⟨b, hb⟩ := waitResult_ok hw
  simp [redrawTick, hb, except_ok_of_isErr_false hr, hd, preTrace]

lemma redraw_configure_fail {env : FrameEnv} {s : RenderState}
    (hd : s.configure_swapchain = true)
    (hw : s.fenceSignaled = true ∨ isErr env.waitFence = false)
    (hr : isErr env.resetFence = false)
    (hc : isErr env.configure = true) :
    redrawTick env s =
      ⟨.panic "Failed to configure swapchain",
       preTrace ++ [.configureSwapchain env.capsExtent]⟩ := by
  cases he : env.configure with
  | ok u => simp [isErr, he] at hc
  | error m =>
    obtain ⟨b, hb⟩ := waitResult_ok hw
    simp [redrawTick, hb, except_ok_of_isErr_false hr, hd,
      configureStage, he, preTrace]

lemma redraw_acquire_fail {env : FrameEnv} {s : RenderState}
    (hd : s.configure_swapchain = true)
    (hw : s.fenceSignaled = true ∨ isErr env.waitFence = false)
    (hr : isErr env.resetFence = false)
    (hc : isErr env.configure = false)
    (ha : isErr env.acquire = true) :
    redrawTick env s =
      ⟨.ok ⟨env.capsExtent, true, false⟩,
       preTrace ++ [.configureSwapchain env.capsExtent, .acquireImage TIMOUT]⟩ := by
  cases he : env.acquire with
  | ok u => simp [isErr, he] at ha
  | error m =>
    obtain ⟨b, hb⟩ := waitResult_ok hw
    simp [redrawTick, hb, except_ok_of_isErr_false hr, hd,
      configureStage, except_ok_of_isErr_false hc, he, preTrace]

lemma redraw_fb_fail {env : FrameEnv} {s : RenderState}
    (hd : s.configure_swapchain = true)
    (hw : s.fenceSignaled = true ∨ isErr env.waitFence = false)
    (hr : isErr env.resetFence = false)
    (hc : isErr env.configure = false)
    (ha : isErr env.acquire = false)
    (hf : isErr env.createFramebuffer = true) :
    redrawTick env s =
      ⟨.panic "called `Result::unwrap()` on an `Err` value",
       preTrace ++ [.configureSwapchain env.capsExtent, .acquireImage TIMOUT,
                    .createFramebuffer env.capsExtent]⟩ := by
  cases he : env.createFramebuffer with
  | ok u => simp [isErr, he] at hf
  | error m =>
    obtain ⟨b, hb⟩ := waitResult_ok hw
    simp [redrawTick, hb, except_ok_of_isErr_false hr, hd,
      configureStage, except_ok_of_isErr_false hc, except_ok_of_isErr_false ha,
      he, preTrace]

lemma redraw_success {env : FrameEnv} {s : RenderState}
    (hd : s.configure_swapchain = true)
    (hw : s.fenceSignaled = true ∨ isErr env.waitFence = false)
    (hr : isErr env.resetFence = false)
    (hc : isErr env.configure = false)
    (ha : isErr env.acquire = false)
    (hf : isErr env.createFramebuffer = false) :
    redrawTick env s =
      ⟨.ok ⟨env.capsExtent, isErr env.present, false⟩, fullTrace env.capsExtent⟩ := by
  obtain ⟨b, hb⟩ := waitResult_ok hw
  simp [redrawTick, hb, except_ok_of_isErr_false hr, hd,
    configureStage, except_ok_of_isErr_false hc, except_ok_of_isErr_false ha,
    except_ok_of_isErr_false hf, preTrace, fullTrace]

/-- Environment in which every external call succeeds; capability extent
800x600. -/
def envOk : FrameEnv :=
  { waitFence := .ok true, resetFence := .ok (), capsExtent := ⟨800, 600⟩,
    configure := .ok (), acquire := .ok (), createFramebuffer := .ok (),
    present := .ok () }

/-- `List.find?` returns the element at the first index satisfying the
predicate. -/
lemma find?_eq_get_of_first {α : Type} (p : α → Bool) (l : List α) :
    ∀ (i : Nat) (hi : i < l.length),
      p (l.get ⟨i, hi⟩) = true →
      (∀ j (hj : j < i), p (l.get ⟨j, Nat.lt_trans hj hi⟩) = false) →
      l.find? p = some (l.get ⟨i, hi⟩) := by
  induction l with
  | nil => intro i hi _ _; simp at hi
  | cons a t ih =>
    intro i hi hp hmin
    cases i with
    | zero => exact List.find?_cons_of_pos _ hp
    | succ k =>
      have ha : p a = false := hmin 0 (Nat.succ_pos k)
      rw [List.find?_cons_of_neg _ (by simp [ha])]
      exact ih k (Nat.lt_of_succ_lt_succ hi) hp
        (fun j hj => hmin (j + 1) (Nat.succ_lt_succ hj))

/-! ### Claim theorems -/

/-- C1: the claim says acquire, record, submit and present happen on every
redraw tick that is not abandoned by a failure, with only reconfiguration
conditional.  Evaluating the handler on a tick whose dirty flag is false
(every external call succeeding) shows the whole frame body is skipped: the
tick performs only the fence wait, fence reset and pool reset, issuing no
acquire, no record, no submit and no present. -/
theorem redraw_not_dirty_skips_whole_frame :
    redrawTick envOk ⟨⟨800, 600⟩, false, false⟩ =
      ⟨.ok ⟨⟨800, 600⟩, false, false⟩,
       [.waitFence TIMOUT, .resetFence, .resetPool]⟩ ∧
    ∀ a ∈ (redrawTick envOk ⟨⟨800, 600⟩, false, false⟩).trace,
      a ≠ .acquireImage TIMOUT ∧
      a ≠ .submit 1 [] [SemId.rendering] (some FenceId.submission) ∧
      a ≠ .present (some SemId.rendering) ∧
      a ≠ .beginPrimary := by
  constructor
  · rfl
  · intro a ha
    have htr : (redrawTick envOk ⟨⟨800, 600⟩, false, false⟩).trace =
        [.waitFence TIMOUT, .resetFence, .resetPool] := rfl
    rw [htr] at ha
    simp only [List.mem_cons, List.not_mem_nil, or_false] at ha
    rcases ha with rfl | rfl | rfl <;> exact ⟨by simp, by simp, by simp, by simp⟩

/-- C2: dropping the resource holder destroys every created GPU handle
exactly once, in the order semaphore, fence, pipeline, pipeline layout,
render pass, command pool, swapchain (unconfigured before the surface is
destroyed), surface, and finally — after the remaining bindings drop — the
instance; and no call references a handle after the call that destroyed
it. -/
theorem resourceHolderDrop_order_and_once :
    resourceHolderDrop gpuResources0 =
      [⟨.semaphore, [.device]⟩, ⟨.fence, [.device]⟩,
       ⟨.pipeline 0, [.device]⟩, ⟨.pipelineLayout 0, [.device]⟩,
       ⟨.renderPass 0, [.device]⟩, ⟨.commandPool, [.device]⟩,
       ⟨.swapchain, [.surface, .device]⟩, ⟨.surface, [.inst]⟩,
       ⟨.device, []⟩, ⟨.inst, []⟩] ∧
    noUseAfterDestroy (resourceHolderDrop gpuResources0) := by
  exact ⟨rfl, by decide⟩

/-- C3: `surface_color_format` returns the first supported format whose
channel type is sRGB when one exists; otherwise the first supported format;
and the fixed `Rgba8Srgb` default when the supported list is empty or the
surface reports no formats at all. -/
theorem surface_color_format_spec :
    (∀ (l : List Format) (i : Nat) (hi : i < l.length),
        (l.get ⟨i, hi⟩).channel = ChannelType.srgb →
        (∀ j (hj : j < i), (l.get ⟨j, Nat.lt_trans hj hi⟩).channel ≠ ChannelType.srgb) →
        surface_color_format (some l) = l.get ⟨i, hi⟩) ∧
    (∀ (l : List Format) (hne : l ≠ []),
        (∀ f ∈ l, f.channel ≠ ChannelType.srgb) →
        surface_color_format (some l) = l.head hne) ∧
    surface_color_format (some []) = RGBA8SRGB ∧
    surface_color_format none = RGBA8SRGB := by
  refine ⟨?_, ?_, rfl, rfl⟩
  · intro l i hi hp hmin
    have hfind := find?_eq_get_of_first (fun f => f.channel == ChannelType.srgb) l i hi
      (by simpa using hp) (fun j hj => by simpa using hmin j hj)
    simp [surface_color_format, hfind]
  · intro l hne hnone
    have hfind : l.find? (fun f => f.channel == ChannelType.srgb) = none := by
      rw [List.find?_eq_none]
      intro f hf
      simp [hnone f hf]
    cases l with
    | nil => exact absurd rfl hne
    | cons a t => simp [surface_color_format, hfind]

/-- Witness for C3 at concrete format lists: a list whose first sRGB entry is
at index 1, a list with no sRGB entry, and the two empty cases. -/
theorem surface_color_format_spec_witness :
    surface_color_format
        (some [⟨1, ChannelType.unorm⟩, ⟨2, ChannelType.srgb⟩, ⟨3, ChannelType.srgb⟩]) =
      ⟨2, ChannelType.srgb⟩ ∧
    surface_color_format (some [⟨4, ChannelType.unorm⟩, ⟨5, ChannelType.other⟩]) =
      ⟨4, ChannelType.unorm⟩ ∧
    surface_color_format (some []) = RGBA8SRGB ∧
    surface_color_format none = RGBA8SRGB := by
  refine ⟨?_, ?_, surface_color_format_spec.2.2.1, surface_color_format_spec.2.2.2⟩
  · exact surface_color_format_spec.1
      [⟨1, ChannelType.unorm⟩, ⟨2, ChannelType.srgb⟩, ⟨3, ChannelType.srgb⟩] 1
      (by decide) (by decide)
      (fun j hj => by
        have hj0 : j = 0 := by omega
        subst hj0
        simp)
  · exact surface_color_format_spec.2.1
      [⟨4, ChannelType.unorm⟩, ⟨5, ChannelType.other⟩] (by decide) (by decide)

/-- C10: the submission fence is created in the signaled state
(`create_fence(true)`), so on the first redraw tick the fence wait succeeds
regardless of the environment's wait outcome: the trace always proceeds past
the wait into the fence reset. -/
theorem initial_fence_signaled_first_wait_succeeds :
    (∀ ext, (initialState ext).fenceSignaled = true) ∧
    (∀ (env : FrameEnv) (ext : Extent2D),
        ((redrawTick env (initialState ext)).trace).take 2 =
          [.waitFence TIMOUT, .resetFence]) := by
  refine ⟨fun ext => rfl, ?_⟩
  intro env ext
  cases hr : env.resetFence with
  | error m =>
    rw [redraw_reset_fail (Or.inl rfl) hr]
    rfl
  | ok u =>
    cases u
    have hr' : isErr env.resetFence = false := by simp [isErr, hr]
    cases hc : env.configure with
    | error m =>
      rw [redraw_configure_fail rfl (Or.inl rfl) hr' (by simp [isErr, hc])]
      rfl
    | ok u2 =>
      cases u2
      have hc' : isErr env.configure = false := by simp [isErr, hc]
      cases ha : env.acquire with
      | error m =>
        rw [redraw_acquire_fail rfl (Or.inl rfl) hr' hc' (by simp [isErr, ha])]
        rfl
      | ok u3 =>
        cases u3
        have ha' : isErr env.acquire = false := by simp [isErr, ha]
        cases hf : env.createFramebuffer with
        | error m =>
          rw [redraw_fb_fail rfl (Or.inl rfl) hr' hc' ha' (by simp [isErr, hf])]
          rfl
        | ok u4 =>
          cases u4
          rw [redraw_success rfl (Or.inl rfl) hr' hc' ha' (by simp [isErr, hf])]
          rfl

/-- C4: the swapchain dirty flag is true at startup, becomes true on every
resize and every scale-factor-change event, is false immediately after every
successful configure call, and ends the tick true after a failed acquire and
after a failed present. -/
theorem dirty_flag_transitions :
    (∀ ext, (initialState ext).configure_swapchain = true) ∧
    (∀ (s : RenderState) (w h : Nat),
        ((handleWindowEvent s (.resized w h)).1).configure_swapchain = true) ∧
    (∀ (s : RenderState) (w h : Nat),
        ((handleWindowEvent s (.scaleFactorChanged w h)).1).configure_swapchain = true) ∧
    (∀ (env : FrameEnv) (s s' : RenderState),
        configureStage env s = .ok s' → s'.configure_swapchain = false) ∧
    (∀ (env : FrameEnv) (s : RenderState),
        s.configure_swapchain = true →
        (s.fenceSignaled = true ∨ isErr env.waitFence = false) →
        isErr env.resetFence = false → isErr env.configure = false →
        isErr env.acquire = true →
        (redrawTick env s).outcome = .ok ⟨env.capsExtent, true, false⟩) ∧
    (∀ (env : FrameEnv) (s : RenderState),
        s.configure_swapchain = true →
        (s.fenceSignaled = true ∨ isErr env.waitFence = false) →
        isErr env.resetFence = false → isErr env.configure = false →
        isErr env.acquire = false → isErr env.createFramebuffer = false →
        isErr env.present = true →
        (redrawTick env s).outcome = .ok ⟨env.capsExtent, true, false⟩) := by
  refine ⟨fun ext => rfl, fun s w h => rfl, fun s w h => rfl, ?_, ?_, ?_⟩
  · intro env s s' hcfg
    unfold configureStage at hcfg
    cases he : env.configure with
    | error m => rw [he] at hcfg; exact absurd hcfg (by simp)
    | ok u =>
      rw [he] at hcfg
      simp only [Except.ok.injEq] at hcfg
      rw [← hcfg]
  · intro env s hd hw hr hc ha
    rw [redraw_acquire_fail hd hw hr hc ha]
  · intro env s hd hw hr hc ha hf hp
    rw [redraw_success hd hw hr hc ha hf, hp]

/-- Witness for C4 at concrete states and environments: startup state, a
resize to 640x480, a scale change to 320x200, a successful configure, a
failed acquire and a failed present. -/
theorem dirty_flag_transitions_witness :
    (initialState ⟨2160, 3840⟩).configure_swapchain = true ∧
    ((handleWindowEvent ⟨⟨1, 1⟩, false, false⟩ (.resized 640 480)).1).configure_swapchain
      = true ∧
    ((handleWindowEvent ⟨⟨1, 1⟩, false, false⟩ (.scaleFactorChanged 320 200)).1).configure_swapchain
      = true ∧
    (⟨⟨800, 600⟩, false, true⟩ : RenderState).configure_swapchain = false ∧
    (redrawTick { envOk with acquire := .error "timeout" }
        ⟨⟨100, 100⟩, true, true⟩).outcome = .ok ⟨⟨800, 600⟩, true, false⟩ ∧
    (redrawTick { envOk with present := .error "out of date" }
        ⟨⟨100, 100⟩, true, true⟩).outcome = .ok ⟨⟨800, 600⟩, true, false⟩ := by
  refine ⟨dirty_flag_transitions.1 ⟨2160, 3840⟩,
    dirty_flag_transitions.2.1 ⟨⟨1, 1⟩, false, false⟩ 640 480,
    dirty_flag_transitions.2.2.1 ⟨⟨1, 1⟩, false, false⟩ 320 200,
    dirty_flag_transitions.2.2.2.1 { envOk with capsExtent := ⟨800, 600⟩ }
      ⟨⟨33, 44⟩, true, true⟩ ⟨⟨800, 600⟩, false, true⟩ rfl,
    dirty_flag_transitions.2.2.2.2.1 _ _ rfl (Or.inl rfl) rfl rfl rfl,
    dirty_flag_transitions.2.2.2.2.2 _ _ rfl (Or.inl rfl) rfl rfl rfl rfl rfl⟩

/-- C6: when image acquisition fails, the handler sets the dirty flag and
abandons the tick: the trace stops at the acquire call, so nothing is
recorded, submitted or presented. -/
theorem acquire_failure_abandons_tick :
    ∀ (env : FrameEnv) (s : RenderState),
      s.configure_swapchain = true →
      (s.fenceSignaled = true ∨ isErr env.waitFence = false) →
      isErr env.resetFence = false → isErr env.configure = false →
      isErr env.acquire = true →
      redrawTick env s =
        ⟨.ok ⟨env.capsExtent, true, false⟩,
         [.waitFence TIMOUT, .resetFence, .resetPool,
          .configureSwapchain env.capsExtent, .acquireImage TIMOUT]⟩ ∧
      ∀ a ∈ (redrawTick env s).trace,
        a ≠ .beginPrimary ∧
        (∀ n w g f, a ≠ .submit n w g f) ∧
        (∀ o, a ≠ .present o) ∧
        a ≠ .destroyFramebuffer := by
  intro env s hd hw hr hc ha
  have heq := redraw_acquire_fail hd hw hr hc ha
  refine ⟨by rw [heq]; rfl, ?_⟩
  intro a hmem
  rw [heq] at hmem
  simp only [preTrace, List.mem_append, List.mem_cons, List.not_mem_nil, or_false] at hmem
  rcases hmem with ((rfl | rfl | rfl) | rfl | rfl) <;>
    exact ⟨by simp, fun n w g f => by simp, fun o => by simp, by simp⟩

/-- Witness for C6: concrete failed acquire from a dirty startup-like
state. -/
theorem acquire_failure_abandons_tick_witness :
    redrawTick { envOk with acquire := .error "surface lost" }
        ⟨⟨2160, 3840⟩, true, true⟩ =
      ⟨.ok ⟨⟨800, 600⟩, true, false⟩,
       [.waitFence TIMOUT, .resetFence, .resetPool,
        .configureSwapchain ⟨800, 600⟩, .acquireImage TIMOUT]⟩ :=
  (acquire_failure_abandons_tick { envOk with acquire := .error "surface lost" }
    ⟨⟨2160, 3840⟩, true, true⟩ rfl (Or.inl rfl) rfl rfl rfl).1

lemma redrawTick_trace_cases_of_wait_ok (env : FrameEnv) (s : RenderState)
    (hw : s.fenceSignaled = true ∨ isErr env.waitFence = false) :
    (redrawTick env s).trace = [.waitFence TIMOUT, .resetFence] ∨
    (redrawTick env s).trace = preTrace ∨
    (redrawTick env s).trace = preTrace ++ [.configureSwapchain env.capsExtent] ∨
    (redrawTick env s).trace =
      preTrace ++ [.configureSwapchain env.capsExtent, .acquireImage TIMOUT] ∨
    (redrawTick env s).trace =
      preTrace ++ [.configureSwapchain env.capsExtent, .acquireImage TIMOUT,
                   .createFramebuffer env.capsExtent] ∨
    (redrawTick env s).trace = fullTrace env.capsExtent := by
  cases hr : env.resetFence with
  | error m => exact Or.inl (by rw [redraw_reset_fail hw hr])
  | ok u =>
    cases u
    have hr' : isErr env.resetFence = false := by simp [isErr, hr]
    cases hd : s.configure_swapchain with
    | false => exact Or.inr (Or.inl (by rw [redraw_not_dirty hw hr' hd]))
    | true =>
      cases hc : env.configure with
      | error m =>
        exact Or.inr (Or.inr (Or.inl
          (by rw [redraw_configure_fail hd hw hr' (by simp [isErr, hc])])))
      | ok u2 =>
        cases u2
        have hc' : isErr env.configure = false := by simp [isErr, hc]
        cases ha : env.acquire with
        | error m =>
          exact Or.inr (Or.inr (Or.inr (Or.inl
            (by rw [redraw_acquire_fail hd hw hr' hc' (by simp [isErr, ha])]))))
        | ok u3 =>
          cases u3
          have ha' : isErr env.acquire = false := by simp [isErr, ha]
          cases hf : env.createFramebuffer with
          | error m =>
            exact Or.inr (Or.inr (Or.inr (Or.inr (Or.inl
              (by rw [redraw_fb_fail hd hw hr' hc' ha' (by simp [isErr, hf])])))))
          | ok u4 =>
            cases u4
            exact Or.inr (Or.inr (Or.inr (Or.inr (Or.inr
              (by rw [redraw_success hd hw hr' hc' ha' (by simp [isErr, hf])])))))

/-- Every possible trace of a redraw tick. -/
lemma redrawTick_trace_cases (env : FrameEnv) (s : RenderState) :
    (redrawTick env s).trace = [.waitFence TIMOUT] ∨
    ((redrawTick env s).trace = [.waitFence TIMOUT, .resetFence] ∨
     (redrawTick env s).trace = preTrace ∨
     (redrawTick env s).trace = preTrace ++ [.configureSwapchain env.capsExtent] ∨
     (redrawTick env s).trace =
       preTrace ++ [.configureSwapchain env.capsExtent, .acquireImage TIMOUT] ∨
     (redrawTick env s).trace =
       preTrace ++ [.configureSwapchain env.capsExtent, .acquireImage TIMOUT,
                    .createFramebuffer env.capsExtent] ∨
     (redrawTick env s).trace = fullTrace env.capsExtent) := by
  cases hfs : s.fenceSignaled with
  | false =>
    cases hwf : env.waitFence with
    | error m => exact Or.inl (by rw [redraw_wait_fail hfs hwf])
    | ok b =>
      exact Or.inr
        (redrawTick_trace_cases_of_wait_ok env s (Or.inr (by simp [isErr, hwf])))
  | true => exact Or.inr (redrawTick_trace_cases_of_wait_ok env s (Or.inl hfs))

/-- C7: every queue submission a tick issues submits exactly one command
buffer, waits on no semaphore, signals the rendering semaphore and attaches
the submission fence; every present waits on the rendering semaphore; in the
full frame trace the present immediately follows the submit; and any tick
that submits also presents (its trace is the full frame trace). -/
theorem submission_and_present_shape :
    (∀ (env : FrameEnv) (s : RenderState) (n : Nat) (w g : List SemId)
        (f : Option FenceId),
        Action.submit n w g f ∈ (redrawTick env s).trace →
        n = 1 ∧ w = [] ∧ g = [SemId.rendering] ∧ f = some FenceId.submission) ∧
    (∀ (env : FrameEnv) (s : RenderState) (o : Option SemId),
        Action.present o ∈ (redrawTick env s).trace → o = some SemId.rendering) ∧
    (∀ ext, (fullTrace ext).indexOf (Action.present (some SemId.rendering)) =
        (fullTrace ext).indexOf
          (Action.submit 1 [] [SemId.rendering] (some FenceId.submission)) + 1) ∧
    (∀ (env : FrameEnv) (s : RenderState) (n : Nat) (w g : List SemId)
        (f : Option FenceId),
        Action.submit n w g f ∈ (redrawTick env s).trace →
        Action.present (some SemId.rendering) ∈ (redrawTick env s).trace ∧
        (redrawTick env s).trace = fullTrace env.capsExtent) := by
  refine ⟨?_, ?_, fun ext => rfl, ?_⟩
  · intro env s n w g f hmem
    rcases redrawTick_trace_cases env s with h | (h | h | h | h | h | h) <;>
      rw [h] at hmem <;> simp [preTrace, fullTrace] at hmem
    exact ⟨hmem.1, hmem.2.1, hmem.2.2.1, hmem.2.2.2⟩
  · intro env s o hmem
    rcases redrawTick_trace_cases env s with h | (h | h | h | h | h | h) <;>
      rw [h] at hmem <;> simp [preTrace, fullTrace] at hmem
    exact hmem
  · intro env s n w g f hmem
    rcases redrawTick_trace_cases env s with h | (h | h | h | h | h | h) <;>
      rw [h] at hmem <;> simp [preTrace, fullTrace] at hmem
    exact ⟨by rw [h]; simp [fullTrace], h⟩

/-- Witness for C7: the all-success tick from a dirty state contains the
canonical submit, whose shape the theorem then fixes, and the matching
present. -/
theorem submission_and_present_shape_witness :
    (1 = 1 ∧ ([] : List SemId) = [] ∧ [SemId.rendering] = [SemId.rendering] ∧
      (some FenceId.submission : Option FenceId) = some FenceId.submission) ∧
    (some SemId.rendering : Option SemId) = some SemId.rendering ∧
    (Action.present (some SemId.rendering) ∈
        (redrawTick envOk ⟨⟨50, 60⟩, true, true⟩).trace ∧
      (redrawTick envOk ⟨⟨50, 60⟩, true, true⟩).trace = fullTrace ⟨800, 600⟩) :=
  ⟨submission_and_present_shape.1 envOk ⟨⟨50, 60⟩, true, true⟩ 1 []
      [SemId.rendering] (some FenceId.submission) (by decide),
    submission_and_present_shape.2.1 envOk ⟨⟨50, 60⟩, true, true⟩
      (some SemId.rendering) (by decide),
    submission_and_present_shape.2.2.2 envOk ⟨⟨50, 60⟩, true, true⟩ 1 []
      [SemId.rendering] (some FenceId.submission) (by decide)⟩

/-- C8 counterexample: on a fully successful tick, the action right after
`finish` (index 13) is the submit, not the framebuffer destruction — the
framebuffer is destroyed at index 16, after submit and present, so it is not
destroyed immediately after recording completes. -/
theorem framebuffer_not_destroyed_right_after_recording :
    ((redrawTick envOk ⟨⟨100, 100⟩, true, true⟩).trace)[13]? =
      some Action.finishBuffer ∧
    ((redrawTick envOk ⟨⟨100, 100⟩, true, true⟩).trace)[14]? ≠
      some Action.destroyFramebuffer ∧
    ((redrawTick envOk ⟨⟨100, 100⟩, true, true⟩).trace)[14]? =
      some (Action.submit 1 [] [SemId.rendering] (some FenceId.submission)) ∧
    ((redrawTick envOk ⟨⟨100, 100⟩, true, true⟩).trace)[15]? =
      some (Action.present (some SemId.rendering)) ∧
    ((redrawTick envOk ⟨⟨100, 100⟩, true, true⟩).trace)[16]? =
      some Action.destroyFramebuffer := by
  decide

/-- C8 amended: on every fully successful tick the transient framebuffer is
destroyed exactly once, as the last action of the tick, after the submit
(index 14) and the present (index 15); recording finishes at index 13. -/
theorem framebuffer_destroyed_last :
    ∀ (env : FrameEnv) (s : RenderState),
      s.configure_swapchain = true →
      (s.fenceSignaled = true ∨ isErr env.waitFence = false) →
      isErr env.resetFence = false → isErr env.configure = false →
      isErr env.acquire = false → isErr env.createFramebuffer = false →
      (redrawTick env s).trace = fullTrace env.capsExtent ∧
      (fullTrace env.capsExtent).indexOf Action.finishBuffer = 13 ∧
      (fullTrace env.capsExtent).indexOf
        (Action.submit 1 [] [SemId.rendering] (some FenceId.submission)) = 14 ∧
      (fullTrace env.capsExtent).indexOf (Action.present (some SemId.rendering)) = 15 ∧
      (fullTrace env.capsExtent).indexOf Action.destroyFramebuffer = 16 ∧
      (fullTrace env.capsExtent).getLast? = some Action.destroyFramebuffer ∧
      (fullTrace env.capsExtent).count Action.destroyFramebuffer = 1 := by
  intro env s hd hw hr hc ha hf
  exact ⟨by rw [redraw_success hd hw hr hc ha hf], rfl, rfl, rfl, rfl, rfl, rfl⟩

/-- Witness for C8's amended claim at a concrete all-success tick. -/
theorem framebuffer_destroyed_last_witness :
    (redrawTick envOk ⟨⟨10, 20⟩, true, true⟩).trace = fullTrace ⟨800, 600⟩ ∧
    (fullTrace (⟨800, 600⟩ : Extent2D)).indexOf Action.finishBuffer = 13 ∧
    (fullTrace (⟨800, 600⟩ : Extent2D)).indexOf
      (Action.submit 1 [] [SemId.rendering] (some FenceId.submission)) = 14 ∧
    (fullTrace (⟨800, 600⟩ : Extent2D)).indexOf
      (Action.present (some SemId.rendering)) = 15 ∧
    (fullTrace (⟨800, 600⟩ : Extent2D)).indexOf Action.destroyFramebuffer = 16 ∧
    (fullTrace (⟨800, 600⟩ : Extent2D)).getLast? = some Action.destroyFramebuffer ∧
    (fullTrace (⟨800, 600⟩ : Extent2D)).count Action.destroyFramebuffer = 1 :=
  framebuffer_destroyed_last envOk ⟨⟨10, 20⟩, true, true⟩ rfl (Or.inl rfl)
    rfl rfl rfl rfl

lemma trace_take3 (env : FrameEnv) (s : RenderState)
    (hw : s.fenceSignaled = true ∨ isErr env.waitFence = false)
    (hr : isErr env.resetFence = false) :
    ((redrawTick env s).trace).take 3 = preTrace := by
  cases hd : s.configure_swapchain with
  | false => rw [redraw_not_dirty hw hr hd]; rfl
  | true =>
    cases hc : env.configure with
    | error m => rw [redraw_configure_fail hd hw hr (by simp [isErr, hc])]; rfl
    | ok u =>
      cases u
      have hc' : isErr env.configure = false := by simp [isErr, hc]
      cases ha : env.acquire with
      | error m => rw [redraw_acquire_fail hd hw hr hc' (by simp [isErr, ha])]; rfl
      | ok u2 =>
        cases u2
        have ha' : isErr env.acquire = false := by simp [isErr, ha]
        cases hf : env.createFramebuffer with
        | error m =>
          rw [redraw_fb_fail hd hw hr hc' ha' (by simp [isErr, hf])]; rfl
        | ok u3 =>
          cases u3
          rw [redraw_success hd hw hr hc' ha' (by simp [isErr, hf])]; rfl

/-- C9: whenever the fence wait and fence reset succeed, the tick performs
the wait, the fence reset and the pool reset before the dirty-flag test,
whatever the flag's value; and on a tick whose dirty flag is false the tick
ends right there — no command is recorded, submitted or presented, and the
fence is left reset (unsignaled) for the next tick's wait. -/
theorem unconditional_prefix_and_idle_tick :
    (∀ (env : FrameEnv) (s : RenderState),
        (s.fenceSignaled = true ∨ isErr env.waitFence = false) →
        isErr env.resetFence = false →
        ((redrawTick env s).trace).take 3 = preTrace) ∧
    (∀ (env : FrameEnv) (s : RenderState),
        s.configure_swapchain = false →
        (s.fenceSignaled = true ∨ isErr env.waitFence = false) →
        isErr env.resetFence = false →
        redrawTick env s = ⟨.ok { s with fenceSignaled := false }, preTrace⟩) :=
  ⟨fun env s hw hr => trace_take3 env s hw hr,
   fun _ _ hd hw hr => redraw_not_dirty hw hr hd⟩

/-- Witness for C9: the prefix on a dirty tick, and a complete idle tick on a
clean state, at concrete inputs. -/
theorem unconditional_prefix_and_idle_tick_witness :
    ((redrawTick envOk ⟨⟨640, 480⟩, true, true⟩).trace).take 3 = preTrace ∧
    redrawTick envOk ⟨⟨640, 480⟩, false, true⟩ =
      ⟨.ok ⟨⟨640, 480⟩, false, false⟩, preTrace⟩ :=
  ⟨unconditional_prefix_and_idle_tick.1 envOk ⟨⟨640, 480⟩, true, true⟩
      (Or.inl rfl) rfl,
    unconditional_prefix_and_idle_tick.2 envOk ⟨⟨640, 480⟩, false, true⟩
      rfl (Or.inl rfl) rfl⟩

lemma trace_take2_of_wait_ok (env : FrameEnv) (s : RenderState)
    (hw : s.fenceSignaled = true ∨ isErr env.waitFence = false) :
    ((redrawTick env s).trace).take 2 = [.waitFence TIMOUT, .resetFence] := by
  cases hr : env.resetFence with
  | error m => rw [redraw_reset_fail hw hr]; rfl
  | ok u =>
    cases u
    have hr' : isErr env.resetFence = false := by simp [isErr, hr]
    cases hd : s.configure_swapchain with
    | false => rw [redraw_not_dirty hw hr' hd]; rfl
    | true =>
      cases hc : env.configure with
      | error m => rw [redraw_configure_fail hd hw hr' (by simp [isErr, hc])]; rfl
      | ok u2 =>
        cases u2
        have hc' : isErr env.configure = false := by simp [isErr, hc]
        cases ha : env.acquire with
        | error m => rw [redraw_acquire_fail hd hw hr' hc' (by simp [isErr, ha])]; rfl
        | ok u3 =>
          cases u3
          have ha' : isErr env.acquire = false := by simp [isErr, ha]
          cases hf : env.createFramebuffer with
          | error m =>
            rw [redraw_fb_fail hd hw hr' hc' ha' (by simp [isErr, hf])]; rfl
          | ok u4 =>
            cases u4
            rw [redraw_success hd hw hr' hc' ha' (by simp [isErr, hf])]; rfl

/-- C5 counterexample: a redraw tick on which the fence wait times out —
gfx-hal's `wait_for_fence` returns `Ok(false)` when the fence did not signal
within the timeout, and the fence here is unsignaled — is not aborted: the
`.expect` passes the non-error through and the handler completes the entire
frame normally (configure, acquire, record, submit, present), refuting
"aborts rather than continuing the frame". -/
theorem fence_wait_timeout_continues_frame :
    redrawTick { envOk with waitFence := .ok false } ⟨⟨800, 600⟩, true, false⟩ =
      ⟨.ok ⟨⟨800, 600⟩, false, false⟩, fullTrace ⟨800, 600⟩⟩ := by
  decide

/-- C5 amended: the fence wait uses the bounded one-second timeout constant
`TIMOUT = 1_000_000_000` nanoseconds, but a fence-wait timeout is not fatal:
`wait_for_fence` reports it as the non-error `Ok(false)`, which the
handler's `.expect` passes through, and the tick continues past the wait
into the fence reset; only an error from the wait (out-of-memory or
device-lost) aborts — then the handler panics at once, issuing no further
call in that tick. -/
theorem fence_wait_timeout_nonfatal_error_fatal :
    TIMOUT = 1000000000 ∧
    (∀ (env : FrameEnv) (s : RenderState),
        s.fenceSignaled = false → env.waitFence = .ok false →
        ((redrawTick env s).trace).take 2 = [.waitFence TIMOUT, .resetFence]) ∧
    (∀ (env : FrameEnv) (s : RenderState) (msg : String),
        s.fenceSignaled = false → env.waitFence = .error msg →
        redrawTick env s =
          ⟨.panic "Failed to wait for fence", [.waitFence TIMOUT]⟩) := by
  refine ⟨rfl, ?_, fun env s msg hf hw => redraw_wait_fail hf hw⟩
  intro env s hf hw
  exact trace_take2_of_wait_ok env s (Or.inr (by simp [isErr, hw]))

/-- Witness for C5's amended claim: a concrete timed-out wait proceeds into
the fence reset, and a concrete errored wait panics after the single wait
call. -/
theorem fence_wait_timeout_nonfatal_error_fatal_witness :
    ((redrawTick { envOk with waitFence := .ok false }
        ⟨⟨640, 480⟩, true, false⟩).trace).take 2 =
      [.waitFence TIMOUT, .resetFence] ∧
    redrawTick { envOk with waitFence := .error "device lost" }
        ⟨⟨640, 480⟩, true, false⟩ =
      ⟨.panic "Failed to wait for fence", [.waitFence TIMOUT]⟩ :=
  ⟨fence_wait_timeout_nonfatal_error_fatal.2.1
      { envOk with waitFence := .ok false } ⟨⟨640, 480⟩, true, false⟩ rfl rfl,
   fence_wait_timeout_nonfatal_error_fatal.2.2
      { envOk with waitFence := .error "device lost" } ⟨⟨640, 480⟩, true, false⟩
      "device lost" rfl rfl⟩

end OpenglRust
